import Mathlib

/-!
# Shallow embedding of `ubi-utils/src/ubimkvol.c`

This file models the parameter-resolution and validation pipeline of the
`ubimkvol` tool: the option loop `parse_opt`, the validator
`param_sanity_check`, and the `main` driver, together with the external
collaborator calls (libubi) abstracted as an oracle environment.  External
calls and user-visible prints are recorded as an event trace so that
ordering and resource properties can be stated.

Machine integers are modelled as mathematical integers reduced explicitly
to the relevant width (`toLongLong`, `toInt32`): C `long long` and
`unsigned long long` are 64 bits, `int` is 32 bits (LP64).
-/

set_option maxHeartbeats 1000000

namespace Ubimkvol

/-- `ULLONG_MAX` on an LP64 platform: `2^64 - 1`. -/
def ULLONG_MAX : Nat := 2 ^ 64 - 1

/-- Reduce an unsigned 64-bit value to a C `long long` (two's complement),
as gcc/clang do for an out-of-range unsigned-to-signed conversion. -/
def toLongLong (v : Nat) : Int :=
  if v % 2 ^ 64 < 2 ^ 63 then ((v % 2 ^ 64 : Nat) : Int)
  else ((v % 2 ^ 64 : Nat) : Int) - 2 ^ 64

/-- Reduce an unsigned value to a C `int` (32-bit two's complement). -/
def toInt32 (v : Nat) : Int :=
  if v % 2 ^ 32 < 2 ^ 31 then ((v % 2 ^ 32 : Nat) : Int)
  else ((v % 2 ^ 32 : Nat) : Int) - 2 ^ 32

/-- Value of a decimal digit list, most significant first. -/
def digitsToNat : List Char → Nat → Nat
  | [], acc => acc
  | c :: cs, acc => digitsToNat cs (acc * 10 + (c.toNat - 48))

/-- Result of the `strtoull`/`strtoul` model: the returned unsigned
value, the string left at `endp`, and whether any digits were consumed
(`endp != optarg`). -/
structure StrtoullOut where
  value : Nat
  rest : String
  consumed : Bool
  deriving DecidableEq, Repr

/-- Model of C `strtoull(s, &endp, 0)` (and, on LP64, `strtoul`) for the
inputs this program meets: an optional sign followed by decimal digits.
On overflow the returned value saturates at `ULLONG_MAX`; a leading `-`
negates the value modulo `2^64`; with no digits nothing is consumed and
`endp == optarg`.  (Leading whitespace and the base-0 hex/octal prefixes
are not modelled; no claim depends on them.) -/
def strtoull64 (s : String) : StrtoullOut :=
  let cs := s.data
  let signed : Bool × List Char :=
    match cs with
    | '-' :: t => (true, t)
    | '+' :: t => (false, t)
    | _ => (false, cs)
  let ds := signed.2.takeWhile (fun c => c.isDigit)
  let rest := signed.2.dropWhile (fun c => c.isDigit)
  if ds.isEmpty then ⟨0, s, false⟩
  else
    let v := min (digitsToNat ds 0) ULLONG_MAX
    let ret := if signed.1 then (2 ^ 64 - v) % 2 ^ 64 else v
    ⟨ret, ⟨rest⟩, true⟩

/-- Modelled from the spec: `ubiutils_get_multiplier` is not under `src/`
(only its caller is); §4.1 of the spec gives its contract: empty suffix
maps to 1, `KiB` to 1024, `MiB` to 1024², `GiB` to 1024³, anything else
is an error (`none`). -/
def get_multiplier (s : String) : Option Nat :=
  if s = "" then some 1
  else if s = "KiB" then some 1024
  else if s = "MiB" then some (1024 * 1024)
  else if s = "GiB" then some (1024 * 1024 * 1024)
  else none

/-- `UBI_DYNAMIC_VOLUME` / `UBI_STATIC_VOLUME`. -/
inductive VolType where
  | dynamic
  | static
  deriving DecidableEq, Repr

/-- Modelled from the spec: `UBI_VOL_NUM_AUTO` comes from `libubi.h`,
which is not under `src/`; the spec says it is a sentinel meaning
"assign automatically", distinct from the user-suppliable ids `≥ 0`. -/
def UBI_VOL_NUM_AUTO : Int := -1

/-- Modelled from the spec: `UBI_MAX_VOLUME_NAME` comes from `ubi-user.h`,
not under `src/`; the spec only requires it to be a fixed maximum
volume-name length (127 in UBI). -/
def UBI_MAX_VOLUME_NAME : Nat := 127

/-- Maximum device node name length (`MAX_NODE_LEN`). -/
def MAX_NODE_LEN : Nat := 255

/-- `struct args`: the configuration record populated by `parse_opt`.
`name = none` models the `NULL` default; `nlen` is derivable as the
length of `name` and is not carried separately. -/
structure Args where
  devn : Int
  vol_id : Int
  vol_type : VolType
  bytes : Int
  alignment : Int
  name : Option String
  node : String
  maxavs : Bool
  deriving DecidableEq, Repr

/-- The static initializer `myargs`. -/
def myargs_default : Args :=
  { devn := -1
    vol_id := UBI_VOL_NUM_AUTO
    vol_type := .dynamic
    bytes := 0
    alignment := 1
    name := none
    node := ""
    maxavs := false }

/-- The mkvol request `struct ubi_mkvol_request` as issued. -/
structure Req where
  vol_id : Int
  alignment : Int
  bytes : Int
  vol_type : VolType
  name : Option String
  deriving DecidableEq, Repr

/-- The unit chosen by the reporter for the reserved-size rendering. -/
inductive SizeUnit where
  | GiB
  | MiB
  | KiB
  deriving DecidableEq, Repr

/-- The reporter's unit selection (`main`, lines 338-343): strict
comparisons against `1024*1024*1024` and `1024*1024`. -/
def renderUnit (rsvd : Int) : SizeUnit :=
  if rsvd > 1024 * 1024 * 1024 then .GiB
  else if rsvd > 1024 * 1024 then .MiB
  else .KiB

/-- External calls and user-visible prints, recorded in order.
`printSetSize` carries the value the `"Set volume size"` printf reads:
in the C source this is `req.bytes`, which at that point (line 308) has
not yet been assigned (first assignment is line 313), so the uninitialized
read is modelled as `none`. -/
inductive Event where
  | openLib
  | getUbiInfo
  | getDevInfo
  | printSetSize (v : Option Int)
  | mkvol (r : Req)
  | getVolInfo
  | printReport (u : SizeUnit)
  | closeLib
  | printHelp
  | printVersion
  | printUseHelp
  deriving DecidableEq, Repr

/-- One option token as delivered by `getopt_long`, with its argument. -/
inductive Opt where
  | typ (s : String)
  | size (s : String)
  | alignment (s : String)
  | devn (s : String)
  | vol_id (s : String)
  | name (s : String)
  | help
  | version
  | maxavsize
  | missingArg
  | unknown
  deriving DecidableEq, Repr

/-- Outcome of one iteration of the `parse_opt` loop, and of the loop
itself: keep going with updated args, `return -1`, or `exit` from inside
the loop (help/version/unknown option). -/
inductive OptStep where
  | cont (a : Args)
  | err
  | exit (code : Int) (ev : Event)
  deriving DecidableEq, Repr

/-- The `case 's'` body of `parse_opt` (lines 140-156): `strtoull`, the
`endp == optarg || bytes < 0` rejection, then the suffix multiplier.
The C multiplication `args->bytes *= mult` is on signed 64-bit values
with a non-negative left operand; it is modelled as the mathematical
product reduced to 64 bits. -/
def applySize (optarg : String) (a : Args) : OptStep :=
  let r := strtoull64 optarg
  let bytes := toLongLong r.value
  if !r.consumed || bytes < 0 then .err
  else if r.rest = "" then .cont { a with bytes := bytes }
  else
    match get_multiplier r.rest with
    | none => .err
    | some mult => .cont { a with bytes := toLongLong (bytes.toNat * mult) }

/-- One `switch` dispatch of `parse_opt` on a single option token. -/
def applyOpt (o : Opt) (a : Args) : OptStep :=
  match o with
  | .typ s =>
      if s = "dynamic" then .cont { a with vol_type := .dynamic }
      else if s = "static" then .cont { a with vol_type := .static }
      else .err
  | .size s => applySize s a
  | .alignment s =>
      let r := strtoull64 s
      let al := toInt32 r.value
      if r.rest ≠ "" || !r.consumed || al ≤ 0 then .err
      else .cont { a with alignment := al }
  | .devn s =>
      let r := strtoull64 s
      let d := toInt32 r.value
      if r.rest ≠ "" || !r.consumed || d < 0 then .err
      else .cont { a with devn := d, node := "/dev/ubi" ++ toString d }
  | .vol_id s =>
      let r := strtoull64 s
      let v := toInt32 r.value
      if r.rest ≠ "" || !r.consumed || v < 0 then .err
      else .cont { a with vol_id := v }
  | .name s => .cont { a with name := some s }
  | .help => .exit 0 .printHelp
  | .version => .exit 0 .printVersion
  | .maxavsize => .cont { a with maxavs := true }
  | .missingArg => .err
  | .unknown => .exit (-1) .printUseHelp

/-- The `parse_opt` loop over the option tokens `getopt_long` yields. -/
def parse_opt : List Opt → Args → OptStep
  | [], a => .cont a
  | o :: os, a =>
      match applyOpt o a with
      | .cont a' => parse_opt os a'
      | .err => .err
      | .exit c ev => .exit c ev

/-- The error kinds `param_sanity_check` can report, in the spec's
taxonomy. -/
inductive SanityErr where
  | MissingSize
  | MissingName
  | DeviceQueryFailed
  | DeviceNotFound
  | NameTooLong
  deriving DecidableEq, Repr

/-- `param_sanity_check` (lines 220-255).  The device-info query
`ubi_get_info` is abstracted as `ubiInfo : Option Nat` (`none` = the call
fails, `some c` = it reports `dev_count = c`); the struct `ubi_info` is
declared in `libubi.h`, which is not under `src/`, so the device count is
modelled from the spec as a non-negative integer.  Returns the reported
error (or `none` on success) together with the events of the external
calls actually made. -/
def param_sanity_check (a : Args) (ubiInfo : Option Nat) :
    Option SanityErr × List Event :=
  if a.bytes = 0 ∧ ¬a.maxavs then (some .MissingSize, [])
  else if a.name = none then (some .MissingName, [])
  else
    match ubiInfo with
    | none => (some .DeviceQueryFailed, [.getUbiInfo])
    | some dev_count =>
        if a.devn ≥ (dev_count : Int) then (some .DeviceNotFound, [.getUbiInfo])
        else if (a.name.getD "").length > UBI_MAX_VOLUME_NAME then
          (some .NameTooLong, [.getUbiInfo])
        else (none, [.getUbiInfo])

/-- `ubi_get_dev_info` response fields used by `main`. -/
structure DevInfo where
  dev_num : Int
  avail_bytes : Int
  deriving DecidableEq, Repr

/-- `ubi_get_vol_info1` response fields used by the reporter. -/
structure VolInfo where
  vol_id : Int
  rsvd_bytes : Int
  eb_size : Int
  name : String
  deriving DecidableEq, Repr

/-- The oracle for the libubi collaborator: whether `libubi_open`
succeeds, what `ubi_get_info` reports, what `ubi_get_dev_info` reports
for the target node, the id `ubi_mkvol` assigns (or failure), and the
post-creation `ubi_get_vol_info1` snapshot. -/
structure Env where
  openOk : Bool
  ubiInfo : Option Nat
  devInfo : Option DevInfo
  mkvolOk : Option Int
  volInfo : Option VolInfo
  deriving DecidableEq, Repr

/-- `main` (lines 257-356): the argc prechecks, the node-length check,
`parse_opt`, `libubi_open`, `param_sanity_check`, `ubi_get_dev_info`,
the max-available-size resolution with its confirmation printf, the
request assembly, `ubi_mkvol`, `ubi_get_vol_info1`, the report, and
`libubi_close` on every path past a successful open.  Returns the exit
code and the event trace.  `opts` is the option-token sequence
`getopt_long` extracts from `argv` (parsing starts at `argv[2]`, since
`parse_opt` passes `argc - 1, &argv[1]`). -/
def main_run (argv : List String) (opts : List Opt) (env : Env) :
    Int × List Event :=
  if argv.length < 2 then (-1, [])
  else if argv.length < 3 then (-1, [])
  else
    let node := argv.getD 1 ""
    if node.length > MAX_NODE_LEN then (-1, [])
    else
      match parse_opt opts { myargs_default with node := node } with
      | .err => (-1, [])
      | .exit c ev => (c, [ev])
      | .cont a =>
          if !env.openOk then (-1, [])
          else
            let sres := param_sanity_check a env.ubiInfo
            let pre := Event.openLib :: sres.2
            match sres.1 with
            | some _ => (-1, pre ++ [.closeLib])
            | none =>
                match env.devInfo with
                | none => (-1, pre ++ [.getDevInfo, .closeLib])
                | some d =>
                    let a2 := if a.maxavs then { a with bytes := d.avail_bytes } else a
                    let evs2 := pre ++ [Event.getDevInfo] ++
                      (if a.maxavs then [Event.printSetSize none] else [])
                    let req : Req :=
                      ⟨a2.vol_id, a2.alignment, a2.bytes, a2.vol_type, a2.name⟩
                    match env.mkvolOk with
                    | none => (-1, evs2 ++ [.mkvol req, .closeLib])
                    | some _ =>
                        match env.volInfo with
                        | none => (-1, evs2 ++ [.mkvol req, .getVolInfo, .closeLib])
                        | some vi =>
                            (0, evs2 ++ [.mkvol req, .getVolInfo,
                              .printReport (renderUnit vi.rsvd_bytes), .closeLib])

/-- Per-check violation predicates of the sanity validator, each stated
independently of the others, used to express the fixed checking order. -/
def violates (a : Args) (ui : Option Nat) : SanityErr → Bool
  | .MissingSize => decide (a.bytes = 0 ∧ ¬a.maxavs)
  | .MissingName => decide (a.name = none)
  | .DeviceQueryFailed => decide (ui = none)
  | .DeviceNotFound =>
      match ui with
      | none => false
      | some c => decide (a.devn ≥ (c : Int))
  | .NameTooLong => decide ((a.name.getD "").length > UBI_MAX_VOLUME_NAME)

/-- List of sanity checks in the order the spec prescribes. -/
def sanityOrder : List SanityErr :=
  [.MissingSize, .MissingName, .DeviceQueryFailed, .DeviceNotFound, .NameTooLong]

/-- The spec's description of the validator: the reported failure is the
first check violated in the fixed order (`none` when no check is). -/
def sanitySpec (a : Args) (ui : Option Nat) : Option SanityErr :=
  (sanityOrder.filter (violates a ui)).head?

/-- A fully successful collaborator oracle used as a concrete test input:
one UBI device, 5000000 available bytes, creation succeeds, and the
created volume reports 2097152 reserved bytes with 131072-byte LEBs. -/
def envOk : Env :=
  ⟨true, some 1, some ⟨0, 5000000⟩, some 0, some ⟨0, 2097152, 131072, "x"⟩⟩

/-! ## Helper lemmas -/

theorem parse_opt_append (xs ys : List Opt) (a : Args) :
    parse_opt (xs ++ ys) a =
      match parse_opt xs a with
      | .cont a' => parse_opt ys a'
      | .err => .err
      | .exit c ev => .exit c ev := by
  induction xs generalizing a with
  | nil => simp [parse_opt]
  | cons o os ih =>
      simp only [List.cons_append, parse_opt]
      cases applyOpt o a with
      | cont a' => exact ih a'
      | err => rfl
      | exit c ev => rfl

theorem applyOpt_preserves_size (o : Opt) (a a' : Args)
    (hs : ∀ s, o ≠ .size s) (hm : o ≠ .maxavsize)
    (h : applyOpt o a = .cont a') :
    a'.bytes = a.bytes ∧ a'.maxavs = a.maxavs := by
  cases o with
  | typ s =>
      simp only [applyOpt] at h
      split at h <;> [skip; split at h] <;>
        simp_all <;> subst h <;> simp
  | size s => exact absurd rfl (hs s)
  | alignment s =>
      simp only [applyOpt] at h
      split at h <;> simp_all; subst h; simp
  | devn s =>
      simp only [applyOpt] at h
      split at h <;> simp_all; subst h; simp
  | vol_id s =>
      simp only [applyOpt] at h
      split at h <;> simp_all; subst h; simp
  | name s =>
      simp only [applyOpt, OptStep.cont.injEq] at h
      subst h; simp
  | help => simp [applyOpt] at h
  | version => simp [applyOpt] at h
  | maxavsize => exact absurd rfl hm
  | missingArg => simp [applyOpt] at h
  | unknown => simp [applyOpt] at h

theorem parse_opt_preserves_size (opts : List Opt) (a a' : Args)
    (hs : ∀ s, Opt.size s ∉ opts) (hm : Opt.maxavsize ∉ opts)
    (h : parse_opt opts a = .cont a') :
    a'.bytes = a.bytes ∧ a'.maxavs = a.maxavs := by
  induction opts generalizing a with
  | nil => simp [parse_opt] at h; subst h; exact ⟨rfl, rfl⟩
  | cons o os ih =>
      simp only [parse_opt] at h
      cases ho : applyOpt o a with
      | cont a1 =>
          rw [ho] at h
          have h1 := applyOpt_preserves_size o a a1
            (fun s => fun he => hs s (he ▸ List.mem_cons_self o os))
            (fun he => hm (he ▸ List.mem_cons_self o os)) ho
          have h2 := ih a1
            (fun s hmem => hs s (List.mem_cons_of_mem o hmem))
            (fun hmem => hm (List.mem_cons_of_mem o hmem)) h
          exact ⟨h2.1.trans h1.1, h2.2.trans h1.2⟩
      | err => rw [ho] at h; cases h
      | exit c ev => rw [ho] at h; cases h

theorem applyOpt_preserves_devn (o : Opt) (a a' : Args)
    (hd : ∀ s, o ≠ .devn s) (h : applyOpt o a = .cont a') :
    a'.devn = a.devn := by
  cases o with
  | typ s =>
      simp only [applyOpt] at h
      split at h <;> [skip; split at h] <;>
        simp_all <;> subst h <;> simp
  | size s =>
      simp only [applyOpt, applySize] at h
      split at h <;> [simp_all; split at h]
      · simp_all; subst h; simp
      · split at h <;> simp_all; subst h; simp
  | alignment s =>
      simp only [applyOpt] at h
      split at h <;> simp_all; subst h; simp
  | devn s => exact absurd rfl (hd s)
  | vol_id s =>
      simp only [applyOpt] at h
      split at h <;> simp_all; subst h; simp
  | name s =>
      simp only [applyOpt, OptStep.cont.injEq] at h
      subst h; simp
  | help => simp [applyOpt] at h
  | version => simp [applyOpt] at h
  | maxavsize =>
      simp only [applyOpt, OptStep.cont.injEq] at h
      subst h; simp
  | missingArg => simp [applyOpt] at h
  | unknown => simp [applyOpt] at h

theorem parse_opt_preserves_devn (opts : List Opt) (a a' : Args)
    (hd : ∀ s, Opt.devn s ∉ opts)
    (h : parse_opt opts a = .cont a') :
    a'.devn = a.devn := by
  induction opts generalizing a with
  | nil => simp [parse_opt] at h; subst h; rfl
  | cons o os ih =>
      simp only [parse_opt] at h
      cases ho : applyOpt o a with
      | cont a1 =>
          rw [ho] at h
          have h1 := applyOpt_preserves_devn o a a1
            (fun s => fun he => hd s (he ▸ List.mem_cons_self o os)) ho
          have h2 := ih a1
            (fun s hmem => hd s (List.mem_cons_of_mem o hmem)) h
          exact h2.trans h1
      | err => rw [ho] at h; cases h
      | exit c ev => rw [ho] at h; cases h

theorem applyOpt_maxavs_mono (o : Opt) (a a' : Args)
    (hm : a.maxavs = true) (h : applyOpt o a = .cont a') :
    a'.maxavs = true := by
  by_cases hms : o = Opt.maxavsize
  · subst hms
    simp only [applyOpt, OptStep.cont.injEq] at h
    subst h; rfl
  · by_cases hs : ∃ s, o = Opt.size s
    · obtain ⟨s, rfl⟩ := hs
      simp only [applyOpt, applySize] at h
      split at h
      · cases h
      · split at h
        · rw [OptStep.cont.injEq] at h
          subst h; exact hm
        · split at h
          · cases h
          · rw [OptStep.cont.injEq] at h
            subst h; exact hm
    · have := applyOpt_preserves_size o a a'
        (fun s he => hs ⟨s, he⟩) hms h
      exact this.2.trans hm

theorem parse_opt_maxavs_mono (opts : List Opt) (a a' : Args)
    (hm : a.maxavs = true) (h : parse_opt opts a = .cont a') :
    a'.maxavs = true := by
  induction opts generalizing a with
  | nil => simp [parse_opt] at h; subst h; exact hm
  | cons o os ih =>
      simp only [parse_opt] at h
      cases ho : applyOpt o a with
      | cont a1 =>
          rw [ho] at h
          exact ih a1 (applyOpt_maxavs_mono o a a1 hm ho) h
      | err => rw [ho] at h; cases h
      | exit c ev => rw [ho] at h; cases h

theorem parse_opt_maxavs_set (opts : List Opt) (a a' : Args)
    (hin : Opt.maxavsize ∈ opts) (h : parse_opt opts a = .cont a') :
    a'.maxavs = true := by
  induction opts generalizing a with
  | nil => cases hin
  | cons o os ih =>
      simp only [parse_opt] at h
      cases ho : applyOpt o a with
      | cont a1 =>
          rw [ho] at h
          by_cases hms : o = Opt.maxavsize
          · subst hms
            simp only [applyOpt, OptStep.cont.injEq] at ho
            exact parse_opt_maxavs_mono os a1 a' (ho ▸ rfl) h
          · have : Opt.maxavsize ∈ os := by
              cases hin with
              | head => exact absurd rfl hms
              | tail _ hmem => exact hmem
            exact ih a1 this h
      | err => rw [ho] at h; cases h
      | exit c ev => rw [ho] at h; cases h

theorem sanity_events (a : Args) (ui : Option Nat) :
    (param_sanity_check a ui).2 = [] ∨
      (param_sanity_check a ui).2 = [Event.getUbiInfo] := by
  unfold param_sanity_check
  split
  · exact Or.inl rfl
  · split
    · exact Or.inl rfl
    · split
      · exact Or.inr rfl
      · split
        · exact Or.inr rfl
        · split
          · exact Or.inr rfl
          · exact Or.inr rfl

theorem toLongLong_small (v : Nat) (h : v < 2 ^ 63) : toLongLong v = (v : Int) := by
  have h1 : v % 2 ^ 64 = v := Nat.mod_eq_of_lt (by omega)
  unfold toLongLong
  rw [h1, if_pos h]

theorem get_multiplier_pos (s : String) (m : Nat)
    (h : get_multiplier s = some m) : 1 ≤ m := by
  unfold get_multiplier at h
  split at h <;> [skip; split at h] <;> [skip; skip; split at h] <;>
    [skip; skip; skip; split at h] <;> simp_all <;> omega

theorem applyOpt_exit_events (o : Opt) (a : Args) (c : Int) (ev : Event)
    (h : applyOpt o a = .exit c ev) :
    ev = .printHelp ∨ ev = .printVersion ∨ ev = .printUseHelp := by
  cases o with
  | typ s =>
      simp only [applyOpt] at h
      split at h
      · cases h
      · split at h <;> cases h
  | size s =>
      simp only [applyOpt, applySize] at h
      split at h
      · cases h
      · split at h
        · cases h
        · split at h <;> cases h
  | alignment s =>
      simp only [applyOpt] at h
      split at h <;> cases h
  | devn s =>
      simp only [applyOpt] at h
      split at h <;> cases h
  | vol_id s =>
      simp only [applyOpt] at h
      split at h <;> cases h
  | name s => cases h
  | help =>
      simp only [applyOpt, OptStep.exit.injEq] at h
      exact Or.inl h.2.symm
  | version =>
      simp only [applyOpt, OptStep.exit.injEq] at h
      exact Or.inr (Or.inl h.2.symm)
  | maxavsize => cases h
  | missingArg => cases h
  | unknown =>
      simp only [applyOpt, OptStep.exit.injEq] at h
      exact Or.inr (Or.inr h.2.symm)

theorem parse_opt_exit_events (opts : List Opt) (a : Args) (c : Int) (ev : Event)
    (h : parse_opt opts a = .exit c ev) :
    ev = .printHelp ∨ ev = .printVersion ∨ ev = .printUseHelp := by
  induction opts generalizing a with
  | nil => cases h
  | cons o os ih =>
      simp only [parse_opt] at h
      cases ho : applyOpt o a with
      | cont a1 =>
          rw [ho] at h
          exact ih a1 h
      | err => rw [ho] at h; cases h
      | exit c1 ev1 =>
          rw [ho] at h
          injection h with h1 h2
          subst h2
          exact applyOpt_exit_events o a c1 ev1 ho

/-! ## Claims -/

/-- Claim C1, corrected: the reporter's unit selection uses strict
comparisons, so the unit is GiB exactly when the reserved byte count is
strictly greater than 2^30, MiB exactly when it is strictly greater than
2^20 but at most 2^30, and KiB otherwise.  In particular a reserved count
of exactly 1 GiB is rendered in MiB, contrary to the claim's "≥". -/
theorem C1_render_unit_boundaries (r : Int) :
    (renderUnit r = .GiB ↔ 1024 * 1024 * 1024 < r) ∧
    (renderUnit r = .MiB ↔ 1024 * 1024 < r ∧ r ≤ 1024 * 1024 * 1024) ∧
    (renderUnit r = .KiB ↔ r ≤ 1024 * 1024) := by
  unfold renderUnit
  split <;> [skip; split] <;> simp_all
  all_goals omega

/-- Counterexample to claim C1 as stated: a reserved byte count of
exactly 2^30 bytes (which is ≥ 1 GiB) is not rendered in GiB. -/
theorem C1_counterexample :
    (1024 * 1024 * 1024 : Int) ≥ 1024 * 1024 * 1024 ∧
    renderUnit (1024 * 1024 * 1024) ≠ SizeUnit.GiB := by
  refine ⟨le_refl _, ?_⟩
  decide

/-- Claim C6, corrected: for a size argument whose numeric prefix reads
as the 64-bit value n, followed by the remainder `suffix`: when the
suffix is recognized and n times its multiplier is below 2^63 (fits the
signed 64-bit `bytes` field), the stored byte count is exactly the
product; an unrecognized suffix is always rejected.  (As stated, the
claim fails for prefixes of 2^63 and above, which the code rejects as a
bad size because the value reads as negative: see the counterexample.) -/
theorem C6_size_suffix_multiplier (s suffix : String) (n : Nat) (a : Args)
    (h : strtoull64 s = ⟨n, suffix, true⟩) :
    (∀ m : Nat, get_multiplier suffix = some m → n * m < 2 ^ 63 →
        applyOpt (Opt.size s) a = .cont { a with bytes := ((n * m : Nat) : Int) }) ∧
    (get_multiplier suffix = none → applyOpt (Opt.size s) a = .err) := by
  constructor
  · intro m hm hlt
    have hm1 : 1 ≤ m := get_multiplier_pos suffix m hm
    have hn : n < 2 ^ 63 := by
      calc n = n * 1 := (Nat.mul_one n).symm
        _ ≤ n * m := Nat.mul_le_mul_left n hm1
        _ < 2 ^ 63 := hlt
    have hnn : ¬toLongLong n < 0 := by
      rw [toLongLong_small n hn]
      simp
    simp only [applyOpt, applySize, h]
    rw [toLongLong_small n hn]
    simp only [Bool.not_true, Bool.false_or, decide_eq_true_eq,
      toLongLong_small n hn] at hnn ⊢
    rw [if_neg (by simp [hnn])]
    by_cases hsuf : suffix = ""
    · subst hsuf
      rw [if_pos rfl]
      unfold get_multiplier at hm
      rw [if_pos rfl] at hm
      obtain rfl : (1 : Nat) = m := Option.some.injEq _ _ ▸ hm
      simp
    · rw [if_neg hsuf, hm]
      simp only [Int.toNat_natCast, toLongLong_small (n * m) hlt]
  · intro hnone
    have hsuf : suffix ≠ "" := by
      intro he
      rw [he] at hnone
      simp [get_multiplier] at hnone
    simp only [applyOpt, applySize, h]
    by_cases hb : toLongLong n < 0
    · rw [if_pos (by simp [hb])]
    · rw [if_neg (by simp [hb]), if_neg hsuf, hnone]

/-- Witness for claim C6's theorem at the concrete input "10MiB". -/
theorem C6_witness :
    applyOpt (Opt.size "10MiB") myargs_default =
      .cont { myargs_default with bytes := ((10 * (1024 * 1024) : Nat) : Int) } :=
  (C6_size_suffix_multiplier "10MiB" "MiB" 10 myargs_default (by decide)).1
    (1024 * 1024) (by decide) (by decide)

/-- Counterexample to claim C6 as stated: the size argument
"9223372036854775808" has numeric prefix 2^63 and the empty (recognized)
suffix, so the claim demands stored bytes 2^63 · 1; the code instead
rejects it, because 2^63 read into a signed 64-bit `bytes` is negative. -/
theorem C6_counterexample :
    strtoull64 "9223372036854775808" = ⟨2 ^ 63, "", true⟩ ∧
    get_multiplier "" = some 1 ∧
    applyOpt (Opt.size "9223372036854775808") myargs_default = .err := by
  refine ⟨by decide, by decide, by decide⟩

/-- Claim C3, confirmed: an option list carrying neither a size option
nor the maxavsize flag leaves `bytes = 0` and `maxavs` unset in the
parsed configuration, and the validator then reports MissingSize before
making any external call, whatever the other fields and the device-info
oracle are. -/
theorem C3_missing_size (opts : List Opt) (a0 a : Args) (ui : Option Nat)
    (h0b : a0.bytes = 0) (h0m : a0.maxavs = false)
    (hs : ∀ s, Opt.size s ∉ opts) (hm : Opt.maxavsize ∉ opts)
    (hp : parse_opt opts a0 = .cont a) :
    param_sanity_check a ui = (some .MissingSize, []) := by
  obtain ⟨hb, hmx⟩ := parse_opt_preserves_size opts a0 a hs hm hp
  unfold param_sanity_check
  rw [if_pos ⟨hb.trans h0b, by simp [hmx.trans h0m]⟩]

/-- Witness for claim C3's theorem: a run that supplies a name, a type
and an alignment but no size and no maxavsize. -/
theorem C3_witness :
    param_sanity_check
      { myargs_default with
          node := "/dev/ubi0"
          vol_type := .static
          alignment := 2
          name := some "data" } (some 1) =
      (some SanityErr.MissingSize, []) :=
  C3_missing_size [Opt.typ "static", Opt.alignment "2", Opt.name "data"]
    { myargs_default with node := "/dev/ubi0" }
    { myargs_default with
        node := "/dev/ubi0"
        vol_type := .static
        alignment := 2
        name := some "data" } (some 1)
    rfl rfl (by simp) (by simp) (by decide)

/-- Claim C4, confirmed: the validator reports exactly the first check
violated in the fixed order MissingSize, MissingName, DeviceQueryFailed,
DeviceNotFound, NameTooLong, each check's violation condition being
stated independently of the others. -/
theorem C4_sanity_check_order (a : Args) (ui : Option Nat) :
    (param_sanity_check a ui).1 = sanitySpec a ui := by
  simp only [param_sanity_check, sanitySpec, sanityOrder]
  have hiff : (a.bytes = 0 ∧ ¬a.maxavs) ↔ (a.bytes = 0 ∧ a.maxavs = false) := by
    simp
  by_cases h1 : a.bytes = 0 ∧ a.maxavs = false
  · rw [if_pos (hiff.mpr h1)]
    simp [List.filter_cons, violates, h1.1, h1.2]
  · rw [if_neg (fun hc => h1 (hiff.mp hc))]
    by_cases h2 : a.name = none
    · simp [List.filter_cons, violates, h1, h2]
    · rw [if_neg h2]
      cases ui with
      | none => simp [List.filter_cons, violates, h1, h2]
      | some c =>
          by_cases h4 : a.devn ≥ (c : Int)
          · simp [List.filter_cons, violates, h1, h2, h4]
          · by_cases h5 : (a.name.getD "").length > UBI_MAX_VOLUME_NAME
            · simp [List.filter_cons, violates, h1, h2, h4, h5]
            · simp [List.filter_cons, violates, h1, h2, h4, h5]

/-- Claim C7, confirmed: a size argument whose 64-bit reading is
negative — "-1" reads as `ULLONG_MAX`, i.e. -1 as a signed 64-bit
value — makes the option loop fail once it reaches that option, and the
whole run exits -1 with an empty event trace: libubi is never opened and
no device query of any kind is made. -/
theorem C7_negative_size_before_open (argv : List String)
    (opts1 opts2 : List Opt) (env : Env) (a : Args) (s : String)
    (hneg : toLongLong (strtoull64 s).value < 0)
    (hp : parse_opt opts1 { myargs_default with node := argv.getD 1 "" } = .cont a) :
    main_run argv (opts1 ++ Opt.size s :: opts2) env = (-1, []) := by
  have happ : applyOpt (Opt.size s) a = .err := by
    simp only [applyOpt, applySize]
    rw [if_pos (by simp [hneg])]
  simp only [main_run]
  split
  · rfl
  · split
    · rfl
    · split
      · rfl
      · rw [parse_opt_append, hp]
        simp only [parse_opt, happ]

/-- Witness for claim C7's theorem: the documented end-to-end scenario
with size "-1". -/
theorem C7_witness :
    main_run ["ubimkvol", "/dev/ubi0", "-s", "-1"] [Opt.size "-1"] envOk = (-1, []) :=
  C7_negative_size_before_open ["ubimkvol", "/dev/ubi0", "-s", "-1"] [] [] envOk
    { myargs_default with node := "/dev/ubi0" } "-1" (by decide) rfl

/-- Claim C2, corrected: the help/version short-circuit holds only once
option scanning reaches the flag.  Provided the two argument-count
prechecks and the node-length check pass, and every option before the
help (resp. version) flag is applied successfully, the program prints
the fixed help (resp. version) text and exits 0 with no other event:
libubi is never opened and no validation or device query runs, whatever
options follow the flag.  (As stated — unconditionally for any argument
list containing the flag — the claim is false: see the counterexample,
where `-h` alone is rejected by the too-few-arguments precheck.) -/
theorem C2_help_version_short_circuit (argv : List String)
    (opts1 opts2 : List Opt) (env : Env) (a : Args)
    (hc : 3 ≤ argv.length)
    (hn : (argv.getD 1 "").length ≤ MAX_NODE_LEN)
    (hp : parse_opt opts1 { myargs_default with node := argv.getD 1 "" } = .cont a) :
    main_run argv (opts1 ++ Opt.help :: opts2) env = (0, [Event.printHelp]) ∧
    main_run argv (opts1 ++ Opt.version :: opts2) env = (0, [Event.printVersion]) := by
  constructor <;>
    (simp only [main_run]
     rw [if_neg (by omega), if_neg (by omega), if_neg (by omega),
       parse_opt_append, hp]
     simp only [parse_opt, applyOpt])

/-- Witness for claim C2's theorem: help (resp. version) as the only
option of an otherwise well-formed invocation. -/
theorem C2_witness :
    main_run ["ubimkvol", "/dev/ubi0", "-h"] [Opt.help] envOk =
      (0, [Event.printHelp]) ∧
    main_run ["ubimkvol", "/dev/ubi0", "-h"] [Opt.version] envOk =
      (0, [Event.printVersion]) :=
  C2_help_version_short_circuit ["ubimkvol", "/dev/ubi0", "-h"] [] [] envOk
    { myargs_default with node := "/dev/ubi0" } (by decide) (by decide) rfl

/-- Counterexample to claim C2 as stated: the invocation whose whole
argument list is just the help flag (`ubimkvol -h`) hits the
too-few-arguments check before option parsing, exits -1, and prints
nothing — neither help text nor an exit status 0. -/
theorem C2_counterexample :
    (main_run ["ubimkvol", "-h"] [Opt.help] envOk).1 ≠ 0 ∧
    Event.printHelp ∉ (main_run ["ubimkvol", "-h"] [Opt.help] envOk).2 := by
  decide

/-- Claim C10, confirmed: without the deprecated devn option the device
number keeps its default -1, which is strictly below every reported
device count, so the validator can never report DeviceNotFound on such a
run; and the validator's outcome never depends on the positional
device-node path at all. -/
theorem C10_devn_default_never_devicenotfound (opts : List Opt) (a0 a : Args)
    (h0 : a0.devn = -1)
    (hnd : ∀ s, Opt.devn s ∉ opts)
    (hp : parse_opt opts a0 = .cont a) :
    a.devn = -1 ∧
    (∀ ui : Option Nat,
      (param_sanity_check a ui).1 ≠ some SanityErr.DeviceNotFound) ∧
    (∀ (a' : Args) (node' : String) (ui : Option Nat),
      param_sanity_check { a' with node := node' } ui = param_sanity_check a' ui) := by
  have hdev : a.devn = -1 := (parse_opt_preserves_devn opts a0 a hnd hp).trans h0
  refine ⟨hdev, ?_, ?_⟩
  · intro ui
    unfold param_sanity_check
    split
    · simp
    · split
      · simp
      · cases ui with
        | none => simp
        | some c =>
            have hlt : ¬a.devn ≥ (c : Int) := by
              rw [hdev]
              have : (0 : Int) ≤ (c : Int) := Int.natCast_nonneg c
              omega
            dsimp only
            rw [if_neg hlt]
            split <;> simp
  · intro a' node' ui
    rfl

/-- Witness for claim C10's theorem: a devn-free option list. -/
theorem C10_witness :
    ({ myargs_default with node := "/dev/ubi0", name := some "x", bytes := 1 } : Args).devn = -1 ∧
    (∀ ui : Option Nat,
      (param_sanity_check
        { myargs_default with node := "/dev/ubi0", name := some "x", bytes := 1 } ui).1 ≠
        some SanityErr.DeviceNotFound) ∧
    (∀ (a' : Args) (node' : String) (ui : Option Nat),
      param_sanity_check { a' with node := node' } ui = param_sanity_check a' ui) :=
  C10_devn_default_never_devicenotfound [Opt.name "x", Opt.size "1"]
    { myargs_default with node := "/dev/ubi0" }
    { myargs_default with node := "/dev/ubi0", name := some "x", bytes := 1 }
    rfl (by simp) (by decide)

/-- Claim C5, confirmed: on a run with the maxavsize flag that passes
parsing and validation and whose device query succeeds, the issued
request's byte count equals the avail_bytes that query returned —
whatever size was supplied explicitly — and the query immediately
precedes issuance: only the confirmation print stands between the
device-info query event and the mkvol event in the trace. -/
theorem C5_maxavs_overrides (argv : List String) (opts : List Opt)
    (env : Env) (a : Args) (d : DevInfo)
    (hc : 3 ≤ argv.length)
    (hn : (argv.getD 1 "").length ≤ MAX_NODE_LEN)
    (hp : parse_opt opts { myargs_default with node := argv.getD 1 "" } = .cont a)
    (hm : Opt.maxavsize ∈ opts)
    (ho : env.openOk = true)
    (hs : (param_sanity_check a env.ubiInfo).1 = none)
    (hd : env.devInfo = some d) :
    ∃ pre post req,
      (main_run argv opts env).2 =
        pre ++ Event.getDevInfo :: Event.printSetSize none ::
          Event.mkvol req :: post ∧
      req.bytes = d.avail_bytes := by
  have hmx : a.maxavs = true :=
    parse_opt_maxavs_set opts { myargs_default with node := argv.getD 1 "" } a hm hp
  simp only [main_run]
  rw [if_neg (by omega), if_neg (by omega), if_neg (by omega)]
  split
  · rename_i h
    rw [hp] at h
    cases h
  · rename_i c ev h
    rw [hp] at h
    cases h
  · rename_i a' h
    rw [hp] at h
    injection h with ha'
    subst ha'
    rw [if_neg (by rw [ho]; simp)]
    rw [hs]
    dsimp only
    rw [hd]
    dsimp only
    rw [hmx]
    simp only [if_true]
    cases env.mkvolOk with
    | none =>
        refine ⟨Event.openLib :: (param_sanity_check a env.ubiInfo).2,
          [Event.closeLib],
          ⟨a.vol_id, a.alignment, d.avail_bytes, a.vol_type, a.name⟩, ?_, rfl⟩
        simp
    | some assigned =>
        cases env.volInfo with
        | none =>
            refine ⟨Event.openLib :: (param_sanity_check a env.ubiInfo).2,
              [Event.getVolInfo, Event.closeLib],
              ⟨a.vol_id, a.alignment, d.avail_bytes, a.vol_type, a.name⟩, ?_, rfl⟩
            simp
        | some vi =>
            refine ⟨Event.openLib :: (param_sanity_check a env.ubiInfo).2,
              [Event.getVolInfo, Event.printReport (renderUnit vi.rsvd_bytes),
                Event.closeLib],
              ⟨a.vol_id, a.alignment, d.avail_bytes, a.vol_type, a.name⟩, ?_, rfl⟩
            simp

/-- Witness for claim C5's theorem: the maxavsize flag together with an
explicit size of 10 bytes; the issued request carries the device's
5000000 available bytes. -/
theorem C5_witness :
    ∃ pre post req,
      (main_run ["ubimkvol", "/dev/ubi0", "-s", "10", "-m"]
          [Opt.size "10", Opt.maxavsize, Opt.name "data"] envOk).2 =
        pre ++ Event.getDevInfo :: Event.printSetSize none ::
          Event.mkvol req :: post ∧
      req.bytes = (5000000 : Int) :=
  C5_maxavs_overrides ["ubimkvol", "/dev/ubi0", "-s", "10", "-m"]
    [Opt.size "10", Opt.maxavsize, Opt.name "data"] envOk
    { myargs_default with
        node := "/dev/ubi0"
        bytes := 10
        maxavs := true
        name := some "data" }
    ⟨0, 5000000⟩
    (by decide) (by decide) (by decide) (by decide) rfl (by decide) rfl

/-- Claim C8, confirmed: on every run whose trace contains the libubi
open event — i.e. on which the handle was successfully acquired — the
trace contains the close event exactly once, whether the run ends in
success or in any validation, device-query, creation or
post-creation-query failure. -/
theorem C8_libubi_closed_once (argv : List String) (opts : List Opt) (env : Env)
    (h : Event.openLib ∈ (main_run argv opts env).2) :
    (main_run argv opts env).2.count Event.closeLib = 1 := by
  revert h
  simp only [main_run]
  split
  · intro h
    simp at h
  · split
    · intro h
      simp at h
    · split
      · intro h
        simp at h
      · split
        · intro h
          simp at h
        · rename_i c ev heq
          intro h
          rcases parse_opt_exit_events _ _ _ _ heq with h1 | h1 | h1 <;>
            (subst h1; simp at h)
        · rename_i a heq
          split
          · intro h
            simp at h
          · intro _
            rcases sanity_events a env.ubiInfo with hse | hse <;>
              cases hmx : a.maxavs <;>
              split <;> (try split) <;> (try split) <;> (try split) <;>
              simp [hse, List.count_append, List.count_cons]

/-- Witness for claim C8's theorem: a successful end-to-end run, whose
trace opens the handle and closes it exactly once. -/
theorem C8_witness :
    (main_run ["ubimkvol", "/dev/ubi0", "-s", "10", "-N", "x"]
        [Opt.size "10", Opt.name "x"] envOk).2.count Event.closeLib = 1 :=
  C8_libubi_closed_once ["ubimkvol", "/dev/ubi0", "-s", "10", "-N", "x"]
    [Opt.size "10", Opt.name "x"] envOk (by decide)

/-- Claim C9, code bug: on a maxavsize run the `"Set volume size"`
printf (line 308) reads `req.bytes`, but `req` is first assigned only at
lines 311-315, so the read is of an uninitialized field (modelled
`none`): the printed value is not the resolved size.  Evaluated at the
failing input — a maxavsize run against a device with 5000000 available
bytes — the trace shows the print event carrying the uninitialized read
while the request issued right after it carries the resolved 5000000. -/
theorem C9_uninitialized_setsize_print :
    (main_run ["ubimkvol", "/dev/ubi0", "-N", "x", "-m"]
        [Opt.name "x", Opt.maxavsize] envOk).2 =
      [Event.openLib, Event.getUbiInfo, Event.getDevInfo,
        Event.printSetSize none,
        Event.mkvol ⟨UBI_VOL_NUM_AUTO, 1, 5000000, VolType.dynamic, some "x"⟩,
        Event.getVolInfo, Event.printReport .MiB, Event.closeLib] ∧
    Event.printSetSize (some 5000000) ∉
      (main_run ["ubimkvol", "/dev/ubi0", "-N", "x", "-m"]
        [Opt.name "x", Opt.maxavsize] envOk).2 := by
  decide

end Ubimkvol
